import Mathlib

/-!
Verification of the CSML conversation-engine core: a shallow embedding of
the block interpreter, layered memory model and condition evaluator of
`src/interpreter/ast_interpreter.rs`, and of the integer arithmetic of
`src/data/primitive/int.rs`, together with theorems settling the spec
claims about them.

Conventions of the embedding:
* Rust `Result<T, io::Error>` becomes `RResult T` with string messages;
  a Rust panic (process abort) is the extra outcome `RResult.panic`.
* Rust functions returning a plain value but able to panic internally
  return `PanicOr`.
* Rust `i64` is `Int`; the two always-checked overflow sites of `/` and
  `%` (`i64::MIN` with divisor `-1`, and a zero divisor for `%`)
  are modelled as explicit panics.  `+`, `-`, `*` are modelled with
  release-profile two's-complement wrapping (`wrap64`); no claim here
  depends on their overflow behaviour.
* `f64` results are modelled as exact rationals; no claim inspects a
  float's numeric value, only its kind.
-/

set_option maxHeartbeats 1000000

/-- Outcome of a Rust call returning `Result`: success, a recoverable
error carrying its message, or a panic that aborts the process. -/
inductive RResult (α : Type) where
  | ok : α → RResult α
  | err : String → RResult α
  | panic : RResult α
deriving Repr

/-- Outcome of a Rust call returning a plain value but able to panic. -/
inductive PanicOr (α : Type) where
  | ret : α → PanicOr α
  | panic : PanicOr α
deriving Repr, DecidableEq

namespace Ast

/-- Literal values of the script language (`parser::ast::Literal`).  The
variant names are those matched in `ast_interpreter.rs`; the non-string
kinds are modelled from the spec's closed kind set (§3): the interpreter
file only ever matches `StringLiteral`, and the spec guarantees at least
integer and boolean literals also exist. -/
inductive Literal where
  | strLit : String → Literal
  | intLit : Int → Literal
  | boolLit : Bool → Literal
deriving Repr, DecidableEq

/-- String conversion of a literal (Rust `to_string` via `Display`). -/
def Literal.to_string : Literal → String
  | .strLit s => s
  | .intLit i => toString i
  | .boolLit b => if b then "true" else "false"

/-- Modelled from the spec: the partial ordering of literals compares
same-kind values and is `none` (incomparable) across kinds (§4.1);
`parser::ast` (not under `src/`) derives `PartialOrd`. -/
def Literal.partial_cmp : Literal → Literal → Option Ordering
  | .strLit a, .strLit b => some (compare a b)
  | .intLit a, .intLit b => some (compare a b)
  | .boolLit a, .boolLit b => some (compare a b)
  | _, _ => none

/-- The infix operators of `parser::ast::Infix`. -/
inductive InfixOp where
  | equal
  | greaterThanEqual
  | lessThanEqual
  | greaterThan
  | lessThan
  | and
  | or
deriving Repr, DecidableEq

/-- Expression/statement tree (`parser::ast::Expr`), restricted to the
node shapes consumed by `ast_interpreter.rs`.  `Ident` newtypes are
flattened to `String`. -/
inductive Expr where
  | litExpr : Literal → Expr
  | identExpr : String → Expr
  | builderExpr : Expr → Expr → Expr
  | complexLiteral : List Expr → Expr
  | vecExpr : List Expr → Expr
  | infixExpr : InfixOp → Expr → Expr → Expr
  | reserved : String → Expr → Expr
  | ifExpr : Expr → List Expr → Expr
  | goto : String → Expr
  | remember : String → Expr → Expr
  | action : String → Expr → Expr
  | functionExpr : String → Expr → Expr
  | empty : Expr
deriving Repr

/-- A stored memory entry (`json_to_rust::MemoryType`, not under `src/`):
the interpreter only reads its `value` field and stringifies it
(`memorytype_to_literal`), so only that field is modelled. -/
structure MemoryType where
  value : String
deriving Repr, DecidableEq

/-- Modelled from the spec: one memory scope, a mapping
`key -> ordered sequence of stored values` (append-only, insertion order
preserved, §3).  The concrete container in the repository (not under
`src/`) is a `multimap::MultiMap`, whose `get` returns the FIRST value
of the key's vector, `get_vec` the whole vector (`none` when the key is
absent), and `contains_key` tests presence; those three accessors are
modelled here. -/
structure Scope where
  entries : String → List MemoryType

/-- `MultiMap::contains_key`. -/
def Scope.contains_key (s : Scope) (k : String) : Bool :=
  !(s.entries k).isEmpty

/-- `MultiMap::get`: the first (earliest-inserted) value for the key. -/
def Scope.get (s : Scope) (k : String) : Option MemoryType :=
  (s.entries k).head?

/-- `MultiMap::get_vec`: the full insertion-ordered vector for the key. -/
def Scope.get_vec (s : Scope) (k : String) : Option (List MemoryType) :=
  if (s.entries k).isEmpty then none else some (s.entries k)

/-- The three-scope memory (`json_to_rust::Memory`): `metadata`,
`current`, `past`, as read by `ast_interpreter.rs`. -/
structure Memory where
  metadata : Scope
  current : Scope
  past : Scope

/-- The event payload (`json_to_rust::PayLoad`); `content.text` is
flattened into the single field the interpreter reads. -/
structure PayLoad where
  content_type : String
  text : String
deriving Repr, DecidableEq

/-- The incoming event (`json_to_rust::Event`), reduced to the payload
the interpreter consumes. -/
structure Event where
  payload : PayLoad
deriving Repr, DecidableEq

/-- The interpreter's read-only context: the fields of
`AstInterpreter<'a>` (`memory: &Memory`, `event: &Option<Event>`). -/
structure Env where
  memory : Memory
  event : Option Event

/-- An outbound message (`message::Message`, not under `src/`): modelled
from the spec as `{content_type, content}` (§3); the content payload
passed to `Message::new` is kept as the raw expression. -/
structure Message where
  content : Expr
  content_type : String
deriving Repr

/-- `Message::new(expr, content_type)`. -/
def Message.new (content : Expr) (content_type : String) : Message :=
  ⟨content, content_type⟩

/-- `message::MessageType` (not under `src/`), modelled from its four
uses in `ast_interpreter.rs`: a single message, a message list, a memory
assignment, or nothing. -/
inductive MessageType where
  | msg : Message → MessageType
  | msgs : List Message → MessageType
  | assign : String → String → MessageType
  | empty : MessageType
deriving Repr

/-- The accumulator (`message::RootInterface`, not under `src/`):
modelled from the spec's Accumulator (§3): ordered messages, memory
writes, optional next step and next flow. -/
structure RootInterface where
  memories : Option (List (String × String))
  messages : List Message
  next_flow : Option String
  next_step : Option String
deriving Repr

/-- Modelled from the spec: `RootInterface::add_message` appends one
message (message sequences are ordered, §3). -/
def RootInterface.add_message (root : RootInterface) (m : Message) : RootInterface :=
  { root with messages := root.messages ++ [m] }

/-- Modelled from the spec: `RootInterface::add_to_memory` records one
memory write; later writes for the same name win, so writes are kept in
order and read right-biased (§3). -/
def RootInterface.add_to_memory (root : RootInterface) (name value : String) : RootInterface :=
  { root with memories := some ((root.memories.getD []) ++ [(name, value)]) }

/-- Modelled from the spec: `RootInterface::add_next_step` records the
`goto` target (§4.3). -/
def RootInterface.add_next_step (root : RootInterface) (step : String) : RootInterface :=
  { root with next_step := some step }

/-- Modelled from the spec: the accumulator merge (Rust `+` on
`RootInterface`): messages concatenate in evaluation order, write lists
union with the later write winning, `next_step`/`next_flow` take the
later non-empty value (§4.3). -/
def RootInterface.merge (a b : RootInterface) : RootInterface where
  memories :=
    match a.memories, b.memories with
    | none, none => none
    | some x, none => some x
    | none, some y => some y
    | some x, some y => some (x ++ y)
  messages := a.messages ++ b.messages
  next_flow := match b.next_flow with | some v => some v | none => a.next_flow
  next_step := match b.next_step with | some v => some v | none => a.next_step

/-- Modelled from the spec: `builtins::remember(name, value)` builds the
memory-write effect recorded into the accumulator (§4.3). -/
def remember (name value : String) : MessageType :=
  .assign name value

/-- Modelled from the spec: the builtin-action resolver behind
`match_builtin` (the `builtins` module is not under `src/`).  Each of the
seven recognized action names yields exactly one outbound message whose
concrete content is the resolver's responsibility (§6) — modelled as the
raw argument expression; per the source's `match_builtin`, `OneOf` is
labelled `"text"` and every other recognized name is labelled with its
own name; an unrecognized name fails. -/
def match_builtin (builtin : String) (args : Expr) : RResult MessageType :=
  if builtin = "Typing" ∨ builtin = "Wait" ∨ builtin = "Text" ∨ builtin = "Url" ∨ builtin = "Image" then
    .ok (.msg (Message.new args builtin))
  else if builtin = "OneOf" then
    .ok (.msg (Message.new args "text"))
  else if builtin = "Button" then
    .ok (.msg (Message.new args "Button"))
  else
    .err "Error no builtin found"

/-- `cmp_lit`: literal comparison under an infix operator; logical
operators at a leaf position are `true`. -/
def cmp_lit (inf : InfixOp) (lit1 lit2 : Literal) : Bool :=
  match inf with
  | .equal => lit1 == lit2
  | .greaterThanEqual =>
      match Literal.partial_cmp lit1 lit2 with
      | some .gt => true
      | some .eq => true
      | _ => false
  | .lessThanEqual =>
      match Literal.partial_cmp lit1 lit2 with
      | some .lt => true
      | some .eq => true
      | _ => false
  | .greaterThan =>
      match Literal.partial_cmp lit1 lit2 with
      | some .gt => true
      | _ => false
  | .lessThan =>
      match Literal.partial_cmp lit1 lit2 with
      | some .lt => true
      | _ => false
  | .and => true
  | .or => true

/-- `cmp_bool`: boolean combination under an infix operator. -/
def cmp_bool (inf : InfixOp) (b1 b2 : Bool) : Bool :=
  match inf with
  | .equal => b1 == b2
  | .greaterThanEqual => b1 ≥ b2
  | .lessThanEqual => b1 ≤ b2
  | .greaterThan => b1 && !b2
  | .lessThan => !b1 && b2
  | .and => b1 && b2
  | .or => b1 || b2

/-- `gen_literal_form_event`: the `"event"` pseudo-variable resolves to
the event's text payload; any other payload type, or an absent event,
is an error. -/
def gen_literal_form_event (env : Env) : RResult Literal :=
  match env.event with
  | some event =>
      if event.payload.content_type = "text" then
        .ok (.strLit event.payload.text)
      else
        .err "event type is unown"
  | none => .err "no event is received"

/-- `memorytype_to_literal`: a present entry stringifies to a string
literal; an absent one is an error. -/
def memorytype_to_literal : Option MemoryType → RResult Literal
  | some elem => .ok (.strLit elem.value)
  | none => .err "Error in memory action"

/-- `search_var_memory`: scope precedence metadata, then current, then
past; the first scope containing the key wins. -/
def search_var_memory (env : Env) (var : String) : RResult Literal :=
  if env.memory.metadata.contains_key var then
    memorytype_to_literal (env.memory.metadata.get var)
  else if env.memory.current.contains_key var then
    memorytype_to_literal (env.memory.current.get var)
  else if env.memory.past.contains_key var then
    memorytype_to_literal (env.memory.past.get var)
  else
    .err "unown variable in memory V2"

/-- `get_var`: the reserved name `"event"` resolves against the event;
everything else searches the memory scopes. -/
def get_var (env : Env) (var : String) : RResult Literal :=
  if var = "event" then gen_literal_form_event env
  else search_var_memory env var

/-- `search_str`: is the expression exactly the given bare identifier? -/
def search_str (name : String) (expr : Expr) : Bool :=
  match expr with
  | .identExpr ident => ident == name
  | _ => false

/-- `memory_get`: `past.get`/`memory.get` dispatch on the leading
identifier, anything else reads `metadata`; the key must be a string
literal. -/
def memory_get (env : Env) (name expr : Expr) : Option MemoryType :=
  match name, expr with
  | .identExpr ident, .litExpr (.strLit lit) =>
      if ident = "past" then env.memory.past.get lit
      else if ident = "memory" then env.memory.current.get lit
      else env.memory.metadata.get lit
  | _, .litExpr (.strLit lit) => env.memory.metadata.get lit
  | _, _ => none

/-- `memory_first`: same dispatch as `memory_get` but through
`get_vec(..).unwrap().last()` — the `unwrap` PANICS when the key is
absent (the source carries `//TODO: RM UNWRAP`), and `.last()` yields
the MOST RECENT value, not the earliest. -/
def memory_first (env : Env) (name expr : Expr) : PanicOr (Option MemoryType) :=
  match name, expr with
  | .identExpr ident, .litExpr (.strLit lit) =>
      if ident = "past" then
        match env.memory.past.get_vec lit with
        | some v => .ret v.getLast?
        | none => .panic
      else if ident = "memory" then
        match env.memory.current.get_vec lit with
        | some v => .ret v.getLast?
        | none => .panic
      else
        match env.memory.metadata.get_vec lit with
        | some v => .ret v.getLast?
        | none => .panic
  | _, .litExpr (.strLit lit) =>
      match env.memory.metadata.get_vec lit with
      | some v => .ret v.getLast?
      | none => .panic
  | _, _ => .ret none

/-- `get_memory_action`: dispatch on the trailing function name,
`get` or `first`; anything else is an error. -/
def get_memory_action (env : Env) (name expr : Expr) : RResult Literal :=
  match expr with
  | .functionExpr ident exp =>
      if ident = "get" then
        memorytype_to_literal (memory_get env name exp)
      else if ident = "first" then
        match memory_first env name exp with
        | .ret m => memorytype_to_literal m
        | .panic => .panic
      else
        .err "Error in memory action"
  | _ => .err "Error in memory action"

mutual

/-- `get_var_from_ident`: resolve an expression expected to produce a
literal: literal, identifier, builder-path or interpolation list. -/
def get_var_from_ident (env : Env) (expr : Expr) : RResult Literal :=
  match expr with
  | .litExpr lit => .ok lit
  | .identExpr ident => get_var env ident
  | .builderExpr a b => gen_literal_form_builder env (.builderExpr a b)
  | .complexLiteral vec => gen_literal_form_builder env (.complexLiteral vec)
  | _ => .err "unown variable in Ident err n#1"

/-- `gen_literal_form_builder`: builder-paths headed by `past`, `memory`
or `metadata` go to the memory action; interpolation lists concatenate;
bare identifiers resolve; anything else is an error. -/
def gen_literal_form_builder (env : Env) (expr : Expr) : RResult Literal :=
  match expr with
  | .builderExpr elem exp =>
      if search_str "past" elem then get_memory_action env elem exp
      else if search_str "memory" elem then get_memory_action env elem exp
      else if search_str "metadata" elem then get_memory_action env elem exp
      else .err "Error in Exprecion builder"
  | .complexLiteral vec => get_string_from_complexstring env vec ""
  | .identExpr ident => get_var env ident
  | _ => .err "Error in Exprecion builder"

/-- `get_string_from_complexstring`: fold the interpolation list,
stringifying each resolved element; `new_string` is the loop-local
accumulator of the source (callers pass `""`). -/
def get_string_from_complexstring (env : Env) (exprs : List Expr) (new_string : String) : RResult Literal :=
  match exprs with
  | [] => .ok (.strLit new_string)
  | elem :: rest =>
      match get_var_from_ident env elem with
      | .ok val => get_string_from_complexstring env rest (new_string ++ val.to_string)
      | .err e => .err e
      | .panic => .panic

end

/-- `gen_literal_form_exp`: plain-operand resolution used by the
condition evaluator's mixed nodes — ONLY literals and identifiers;
builder-paths and interpolation lists are errors here. -/
def gen_literal_form_exp (env : Env) (expr : Expr) : RResult Literal :=
  match expr with
  | .litExpr lit => .ok lit
  | .identExpr ident => get_var env ident
  | _ => .err "Expression must be a literal or an identifier"

/-- `check_if_ident`: the four literal-producing shapes. -/
def check_if_ident (expr : Expr) : Bool :=
  match expr with
  | .litExpr _ => true
  | .identExpr _ => true
  | .builderExpr _ _ => true
  | .complexLiteral _ => true
  | _ => false

/-- `evaluate_condition`: recursive boolean evaluation of an infix
condition node.  The arm order follows the source; the source's arms 3
and 4 (`(identish, lit)` and `(lit, identish)`) are unreachable because
a literal already satisfies `check_if_ident`, so every such pair is
taken by the both-identish arm. -/
def evaluate_condition (env : Env) (inf : InfixOp) (expr1 expr2 : Expr) : RResult Bool :=
  match expr1, expr2 with
  | .litExpr l1, .litExpr l2 => .ok (cmp_lit inf l1 l2)
  | .infixExpr i1 ex1 ex2, .infixExpr i2 exp1 exp2 =>
      match evaluate_condition env i1 ex1 ex2, evaluate_condition env i2 exp1 exp2 with
      | .panic, _ => .panic
      | _, .panic => .panic
      | .ok l1, .ok l2 => .ok (cmp_bool inf l1 l2)
      | _, _ => .err "error in evaluation between InfixExpr and InfixExpr"
  | .infixExpr i1 ex1 ex2, exp =>
      match evaluate_condition env i1 ex1 ex2, gen_literal_form_exp env exp with
      | .panic, _ => .panic
      | _, .panic => .panic
      | .ok e1, .ok _ =>
          match inf with
          | .and => .ok e1
          | .or => .ok true
          | _ => .err "error need && or ||"
      | _, _ => .err "error in evaluation between InfixExpr and expr"
  | exp, .infixExpr i1 ex1 ex2 =>
      match gen_literal_form_exp env exp, evaluate_condition env i1 ex1 ex2 with
      | .panic, _ => .panic
      | _, .panic => .panic
      | .ok _, .ok e2 =>
          match inf with
          | .and => .ok e2
          | .or => .ok true
          | _ => .err "error need && or ||"
      | _, _ => .err "error in evaluation between expr and InfixExpr"
  | exp1, exp2 =>
      if check_if_ident exp1 && check_if_ident exp2 then
        match get_var_from_ident env exp1, get_var_from_ident env exp2 with
        | .panic, _ => .panic
        | _, .panic => .panic
        | .ok l1, .ok l2 => .ok (cmp_lit inf l1 l2)
        | _, _ => .err "error in evaluation between ident and ident"
      else
        .err "error in evaluate_condition function"
termination_by sizeOf expr1 + sizeOf expr2

/-- `valid_condition`: reduce an `if` condition to a boolean; infix
errors collapse to `false`, a bare literal is always `true`,
builder-paths and identifiers test resolvability, anything else is
`false`.  A panic raised while resolving propagates (aborting the
process). -/
def valid_condition (env : Env) (expr : Expr) : PanicOr Bool :=
  match expr with
  | .infixExpr inf exp1 exp2 =>
      match evaluate_condition env inf exp1 exp2 with
      | .ok rep => .ret rep
      | .err _ => .ret false
      | .panic => .panic
  | .litExpr _ => .ret true
  | .builderExpr a b =>
      match get_var_from_ident env (.builderExpr a b) with
      | .ok _ => .ret true
      | .err _ => .ret false
      | .panic => .panic
  | .identExpr ident =>
      match get_var env ident with
      | .ok _ => .ret true
      | _ => .ret false
  | _ => .ret false

/-- `add_to_message`: record one evaluated effect into the running
accumulator. -/
def add_to_message (root : RootInterface) (action : MessageType) : RootInterface :=
  match action with
  | .msg m => root.add_message m
  | .msgs msgs => { root with messages := root.messages ++ msgs }
  | .assign name value => root.add_to_memory name value
  | .empty => root

/-- `match_action`: evaluate a `say`/`retry` action expression to zero
or one outbound message. -/
def match_action (env : Env) (act : Expr) : RResult MessageType :=
  match act with
  | .action builtin args => match_builtin builtin args
  | .litExpr l => .ok (.msg (Message.new (.litExpr l) "text"))
  | .builderExpr a b =>
      match get_var_from_ident env (.builderExpr a b) with
      | .ok val => .ok (.msg (Message.new (.litExpr val) "text"))
      | .err e => .err e
      | .panic => .panic
  | .complexLiteral vec =>
      match get_string_from_complexstring env vec "" with
      | .ok val => .ok (.msg (Message.new (.litExpr val) "text"))
      | .err e => .err e
      | .panic => .panic
  | .empty => .ok .empty
  | _ => .err "Error must be a valid action"

mutual

/-- `match_reserved`: dispatch a reserved-keyword statement.  The
`ask`/`respond` arm (interpret the nested block, keep only its messages)
is dead code in the `match_block` flow, which intercepts both names
before calling here; it is kept for fidelity. -/
def match_reserved (env : Env) (res : String) (arg : Expr) : RResult MessageType :=
  if res = "ask" ∨ res = "respond" then
    match arg with
    | .vecExpr block =>
        match match_block env block with
        | .ok root => .ok (.msgs root.messages)
        | .err e => .err e
        | .panic => .panic
    | _ => .err "Error ask/respond must have a block"
  else if res = "say" then
    match_action env arg
  else if res = "retry" then
    match_action env arg
  else
    .err "Error block must start with a reserved keyword"

/-- `match_sub_block`: interpret a nested block and merge its
accumulator into the running one. -/
def match_sub_block (env : Env) (arg : Expr) (root : RootInterface) : RResult RootInterface :=
  match arg with
  | .vecExpr vec =>
      match match_block env vec with
      | .ok action => .ok (root.merge action)
      | .err _ => .err "error in if consequence "
      | .panic => .panic
  | _ => .err "error sub block arg must be of type  Expr::VecExpr"

/-- The statement loop of `match_block`, with the running accumulator
`root` made explicit (the source's loop-local `root`, checked for a
pending `next_step` at the top of every iteration). -/
def match_block_from (env : Env) (root : RootInterface) (actions : List Expr) : RResult RootInterface :=
  match actions with
  | [] => .ok root
  | act :: rest =>
      if root.next_step.isSome then .ok root
      else
        match act with
        | .reserved f arg =>
            if f = "ask" then
              match env.event with
              | none => match_sub_block env arg root
              | some _ => match_block_from env root rest
            else if f = "respond" then
              match env.event with
              | some _ => match_sub_block env arg root
              | none => match_block_from env root rest
            else
              match match_reserved env f arg with
              | .ok action => match_block_from env (add_to_message root action) rest
              | .err e => .err e
              | .panic => .panic
        | .ifExpr cond consequence =>
            match valid_condition env cond with
            | .panic => .panic
            | .ret true =>
                match match_block env consequence with
                | .ok action => match_block_from env (root.merge action) rest
                | .err _ => .err "error in if consequence "
                | .panic => .panic
            | .ret false => match_block_from env root rest
        | .goto ident => match_block_from env (root.add_next_step ident) rest
        | .remember name expr =>
            if check_if_ident expr then
              match get_var_from_ident env expr with
              | .ok (.strLit var) =>
                  match_block_from env (add_to_message root (remember name var)) rest
              | .panic => .panic
              | _ => .err "Error Assign value must be valid"
            else
              .err "Block must start with a reserved keyword"
        | _ => .err "Block must start with a reserved keyword"

/-- `match_block`: interpret one statement block starting from the
empty accumulator. -/
def match_block (env : Env) (actions : List Expr) : RResult RootInterface :=
  match_block_from env ⟨none, [], none, none⟩ actions

end

end Ast

namespace Prim

/-- The runtime value kinds of `data::primitive` (closed set, spec §3):
only the payloads the `int.rs` operations inspect are modelled; `f64`
payloads are modelled as exact rationals. -/
inductive Primitive where
  | int : Int → Primitive
  | float : ℚ → Primitive
  | str : String → Primitive
  | boolean : Bool → Primitive
  | array : List Primitive → Primitive
  | object : List (String × Primitive) → Primitive
  | null : Primitive

/-- Two's-complement wrap into the `i64` range (release-profile
behaviour of Rust `+`, `-`, `*`; debug builds panic on overflow — no
claim here depends on that difference). -/
def wrap64 (z : Int) : Int :=
  (z + 2 ^ 63) % 2 ^ 64 - 2 ^ 63

/-- Modelled from the spec: `tools::check_division_by_zero_i64` (not
under `src/`) fails with the dedicated DivisionByZero error on a zero
divisor, before any computation (§4.1). -/
def check_division_by_zero_i64 (x y : Int) : RResult Int :=
  if y = 0 then .err "DivisionByZero" else .ok x

/-- `PrimitiveInt::do_add`: same-kind addition, cross-kind error. -/
def PrimitiveInt.do_add (self : Int) (other : Primitive) : RResult Primitive :=
  match other with
  | .int o => .ok (.int (wrap64 (self + o)))
  | _ => .err "[!] Add: Illegal operation"

/-- `PrimitiveInt::do_sub`: same-kind subtraction, cross-kind error. -/
def PrimitiveInt.do_sub (self : Int) (other : Primitive) : RResult Primitive :=
  match other with
  | .int o => .ok (.int (wrap64 (self - o)))
  | _ => .err "[!] Sub: Illegal operation"

/-- `PrimitiveInt::do_mul`: same-kind multiplication, cross-kind
error. -/
def PrimitiveInt.do_mul (self : Int) (other : Primitive) : RResult Primitive :=
  match other with
  | .int o => .ok (.int (wrap64 (self * o)))
  | _ => .err "[!] Mul: Illegal operation"

/-- `PrimitiveInt::do_div`: after the zero-divisor check, the evenness
test `self.value % other.value` itself PANICS at
(`i64::MIN`, `-1`) (the one overflowing case of Rust `%`, always
checked); otherwise a non-evenly-divisible pair promotes to float and an
evenly divisible one stays an integer (truncated division). -/
def PrimitiveInt.do_div (self : Int) (other : Primitive) : RResult Primitive :=
  match other with
  | .int o =>
      match check_division_by_zero_i64 self o with
      | .err m => .err m
      | _ =>
          if self = -(2 ^ 63) ∧ o = -1 then .panic
          else if self.tmod o ≠ 0 then .ok (.float ((self : ℚ) / (o : ℚ)))
          else .ok (.int (self.tdiv o))
  | _ => .err "[!] Div: Illegal operation"

/-- `PrimitiveInt::do_rem`: same-kind remainder with NO zero-divisor
check — Rust `%` PANICS on a zero divisor, and also at
(`i64::MIN`, `-1`); cross-kind error. -/
def PrimitiveInt.do_rem (self : Int) (other : Primitive) : RResult Primitive :=
  match other with
  | .int o =>
      if o = 0 then .panic
      else if self = -(2 ^ 63) ∧ o = -1 then .panic
      else .ok (.int (self.tmod o))
  | _ => .err "[!] Rem: Illegal operation"

/-- Two's-complement view of an `i64` as a 64-bit natural. -/
def toU64 (z : Int) : Nat :=
  (z % 2 ^ 64).toNat

/-- Back from the 64-bit two's-complement view to an `i64` value. -/
def ofU64 (n : Nat) : Int :=
  if n < 2 ^ 63 then (n : Int) else (n : Int) - 2 ^ 64

/-- `PrimitiveInt::do_bitand`: same-kind bitwise and (never overflows),
cross-kind error. -/
def PrimitiveInt.do_bitand (self : Int) (other : Primitive) : RResult Primitive :=
  match other with
  | .int o => .ok (.int (ofU64 (Nat.land (toU64 self) (toU64 o))))
  | _ => .err "[!] BitAnd: Illegal operation"

/-- `PrimitiveInt::do_bitor`: same-kind bitwise or (never overflows),
cross-kind error. -/
def PrimitiveInt.do_bitor (self : Int) (other : Primitive) : RResult Primitive :=
  match other with
  | .int o => .ok (.int (ofU64 (Nat.lor (toU64 self) (toU64 o))))
  | _ => .err "[!] BitOr: Illegal operation"

end Prim

namespace Ast

/-- A scope with no entries at all. -/
def emptyScope : Scope := ⟨fun _ => []⟩

/-- Empty three-scope memory. -/
def emptyMemory : Memory := ⟨emptyScope, emptyScope, emptyScope⟩

/-- Interpreter context: empty memory, no incoming event. -/
def envNoEvent : Env := ⟨emptyMemory, none⟩

/-- Interpreter context: empty memory, a text event present. -/
def envWithEvent : Env := ⟨emptyMemory, some ⟨⟨"text", "hello"⟩⟩⟩

/-- Memory after `remember("n", v1)` then `remember("n", v2)`: the
`current` scope holds the two writes for `"n"` in insertion order. -/
def envTwoWrites : Env :=
  ⟨⟨emptyScope, ⟨fun k => if k = "n" then [⟨"v1"⟩, ⟨"v2"⟩] else []⟩, emptyScope⟩, none⟩

/-- Memory with `metadata["x"]=A`, `current["x"]=B`, `past["x"]=C`. -/
def envThreeScopes : Env :=
  ⟨⟨⟨fun k => if k = "x" then [⟨"A"⟩] else []⟩,
    ⟨fun k => if k = "x" then [⟨"B"⟩] else []⟩,
    ⟨fun k => if k = "x" then [⟨"C"⟩] else []⟩⟩, none⟩

/-- Shorthand for a `say` of a string literal. -/
def sayLit (s : String) : Expr := .reserved "say" (.litExpr (.strLit s))

/-- The message a `say` of a string literal produces. -/
def sayMsg (s : String) : Message := Message.new (.litExpr (.strLit s)) "text"

/-- The builder-path `memory.first("k")`. -/
def memFirstPath (k : String) : Expr :=
  .builderExpr (.identExpr "memory") (.functionExpr "first" (.litExpr (.strLit k)))

/-- The builder-path `memory.get("k")`. -/
def memGetPath (k : String) : Expr :=
  .builderExpr (.identExpr "memory") (.functionExpr "get" (.litExpr (.strLit k)))

/-- Shape test used to state the mixed-node property: is the expression
an infix node? -/
def isInfixNode : Expr → Bool
  | .infixExpr _ _ _ => true
  | _ => false

end Ast

namespace Ast

/-- Claim C1: with no Event present, an `ask` statement makes the
interpreter recursively interpret the nested block, merge its
accumulator into the running one and return immediately (no later
statement of the current block is processed — the result does not
depend on `rest`); with an Event present, `ask` is skipped and
interpretation continues with the next statement.  `respond` behaves
symmetrically. -/
theorem C1_ask_respond_halt_or_skip (env : Env) (root : RootInterface)
    (vec rest : List Expr) (sub : RootInterface) (hstep : root.next_step = none) :
    (env.event = none →
      (match_block env vec = .ok sub →
        match_block_from env root (.reserved "ask" (.vecExpr vec) :: rest) =
          .ok (root.merge sub)) ∧
      (∀ arg, match_block_from env root (.reserved "respond" arg :: rest) =
        match_block_from env root rest)) ∧
    (∀ ev, env.event = some ev →
      (match_block env vec = .ok sub →
        match_block_from env root (.reserved "respond" (.vecExpr vec) :: rest) =
          .ok (root.merge sub)) ∧
      (∀ arg, match_block_from env root (.reserved "ask" arg :: rest) =
        match_block_from env root rest)) := by
  constructor
  · intro hev
    constructor
    · intro hsub
      rw [match_block_from.eq_def]
      simp [hstep, hev, match_sub_block, hsub]
    · intro arg
      rw [match_block_from.eq_def]
      simp [hstep, hev]
  · intro ev hev
    constructor
    · intro hsub
      rw [match_block_from.eq_def]
      simp [hstep, hev, match_sub_block, hsub]
    · intro arg
      rw [match_block_from.eq_def]
      simp [hstep, hev]

/-- Witness for C1: the spec's example block
`[ask [say "q1"]; say "after"]` halts with `["q1"]` when no Event is
present and produces `["after"]` only when one is. -/
theorem C1_ask_respond_witness :
    match_block_from envNoEvent ⟨none, [], none, none⟩
        [.reserved "ask" (.vecExpr [sayLit "q1"]), sayLit "after"] =
      .ok ⟨none, [sayMsg "q1"], none, none⟩ ∧
    match_block_from envWithEvent ⟨none, [], none, none⟩
        [.reserved "ask" (.vecExpr [sayLit "q1"]), sayLit "after"] =
      .ok ⟨none, [sayMsg "after"], none, none⟩ := by
  constructor
  · have h := ((C1_ask_respond_halt_or_skip envNoEvent ⟨none, [], none, none⟩
        [sayLit "q1"] [sayLit "after"] ⟨none, [sayMsg "q1"], none, none⟩ rfl).1 rfl).1
      (by simp [match_block, match_block_from, match_reserved, match_action, sayLit, sayMsg,
        Message.new, add_to_message, RootInterface.add_message])
    rw [h]
    simp [RootInterface.merge]
  · have h := (((C1_ask_respond_halt_or_skip envWithEvent ⟨none, [], none, none⟩
        [sayLit "q1"] [sayLit "after"] ⟨none, [], none, none⟩ rfl).2 ⟨⟨"text", "hello"⟩⟩ rfl).2)
      (.vecExpr [sayLit "q1"])
    rw [h]
    simp [match_block_from, match_reserved, match_action, sayLit, sayMsg,
      Message.new, add_to_message, RootInterface.add_message]

/-- Claim C2: a `goto <step>` statement records `<step>` into the
accumulator's `next_step` and no statement occurring after it in the
block is ever evaluated; in particular
`[say "hi"; goto "next"; say "never"]` produces messages `["hi"]` and
`next_step = "next"`, with the third statement's message absent. -/
theorem C2_goto_halts (env : Env) (root : RootInterface) (ident : String)
    (rest : List Expr) (hstep : root.next_step = none) :
    match_block_from env root (.goto ident :: rest) = .ok (root.add_next_step ident) ∧
    match_block envNoEvent [sayLit "hi", .goto "next", sayLit "never"] =
      .ok ⟨none, [sayMsg "hi"], none, some "next"⟩ := by
  constructor
  · rw [match_block_from.eq_def]
    simp only [hstep, Option.isSome_none, Bool.false_eq_true, if_false]
    cases rest with
    | nil => rw [match_block_from.eq_def]
    | cons a r =>
        rw [match_block_from.eq_def]
        simp [RootInterface.add_next_step]
  · simp [match_block, match_block_from, match_reserved, match_action, sayLit, sayMsg,
      Message.new, add_to_message, RootInterface.add_message, RootInterface.add_next_step]

/-- Witness for C2 at a concrete input. -/
theorem C2_goto_witness :
    match_block_from envNoEvent ⟨none, [], none, none⟩ [.goto "s", sayLit "x"] =
      .ok ⟨none, [], none, some "s"⟩ := by
  have h := (C2_goto_halts envNoEvent ⟨none, [], none, none⟩ "s" [sayLit "x"] rfl).1
  simpa [RootInterface.add_next_step] using h

/-- Claim C3 (code bug): at the level of the memory operations the
claim is inverted by the source: after `remember("n", v1)` then
`remember("n", v2)`, `memory_get` (the `get` operation) returns the
EARLIEST value `v1` (`MultiMap::get` yields the first vector element)
while `memory_first` (the `first` operation) returns the LATEST value
`v2` (`get_vec(..).unwrap().last()`), and `memory_first` on an absent
key PANICS on the `unwrap` instead of returning none. -/
theorem C3_memory_first_get_swapped :
    memory_get envTwoWrites (.identExpr "memory") (.litExpr (.strLit "n")) = some ⟨"v1"⟩ ∧
    memory_first envTwoWrites (.identExpr "memory") (.litExpr (.strLit "n")) = .ret (some ⟨"v2"⟩) ∧
    get_memory_action envTwoWrites (.identExpr "memory")
        (.functionExpr "get" (.litExpr (.strLit "n"))) = .ok (.strLit "v1") ∧
    get_memory_action envTwoWrites (.identExpr "memory")
        (.functionExpr "first" (.litExpr (.strLit "n"))) = .ok (.strLit "v2") ∧
    memory_first envTwoWrites (.identExpr "memory") (.litExpr (.strLit "absent")) = .panic := by
  refine ⟨rfl, rfl, rfl, rfl, rfl⟩

/-- Claim C6: a bare identifier that is not the reserved name `"event"`
resolves through the memory scopes in the fixed order metadata, then
current, then past, the first scope containing the key winning; in
particular with `metadata["x"]=A`, `current["x"]=B`, `past["x"]=C`,
resolving `x` returns `A`. -/
theorem C6_search_var_precedence (env : Env) (var : String) (hvar : var ≠ "event") :
    get_var env var = search_var_memory env var ∧
    (env.memory.metadata.contains_key var = true →
      search_var_memory env var = memorytype_to_literal (env.memory.metadata.get var)) ∧
    (env.memory.metadata.contains_key var = false →
      env.memory.current.contains_key var = true →
      search_var_memory env var = memorytype_to_literal (env.memory.current.get var)) ∧
    (env.memory.metadata.contains_key var = false →
      env.memory.current.contains_key var = false →
      env.memory.past.contains_key var = true →
      search_var_memory env var = memorytype_to_literal (env.memory.past.get var)) ∧
    (env.memory.metadata.contains_key var = false →
      env.memory.current.contains_key var = false →
      env.memory.past.contains_key var = false →
      search_var_memory env var = .err "unown variable in memory V2") := by
  refine ⟨?_, ?_, ?_, ?_, ?_⟩
  · simp [get_var, hvar]
  · intro h1
    simp [search_var_memory, h1]
  · intro h1 h2
    simp [search_var_memory, h1, h2]
  · intro h1 h2 h3
    simp [search_var_memory, h1, h2, h3]
  · intro h1 h2 h3
    simp [search_var_memory, h1, h2, h3]

/-- Witness for C6 at the spec's example memory: `metadata["x"]=A`,
`current["x"]=B`, `past["x"]=C`; the bare identifier `x` resolves to
`A`. -/
theorem C6_precedence_witness :
    get_var envThreeScopes "x" = .ok (.strLit "A") := by
  have h := C6_search_var_precedence envThreeScopes "x" (by decide)
  rw [h.1, h.2.1 (by rfl)]
  rfl

/-- Claim C7 (code bug): the condition evaluator is NOT total on its
error paths: a builder-path condition `memory.first("absent")` whose
key is missing from the `current` scope PANICS (the `unwrap` inside
`memory_first`), aborting the whole process, instead of collapsing to
`false`; an `if` statement with that condition aborts its block the
same way. -/
theorem C7_condition_unwrap_panics :
    valid_condition envNoEvent (memFirstPath "absent") = .panic ∧
    match_block envNoEvent [.ifExpr (memFirstPath "absent") [sayLit "yes"]] = .panic := by
  constructor
  · simp [valid_condition, memFirstPath, get_var_from_ident, gen_literal_form_builder,
      search_str, get_memory_action, memory_first, Scope.get_vec, envNoEvent,
      emptyMemory, emptyScope]
  · simp [match_block, match_block_from, valid_condition, memFirstPath, get_var_from_ident,
      gen_literal_form_builder, search_str, get_memory_action, memory_first, Scope.get_vec,
      envNoEvent, emptyMemory, emptyScope]

/-- Claim C8, counterexample: in a mixed `or` node whose infix
sub-condition fails to evaluate (unresolvable identifiers), the
evaluator does NOT return `true` unconditionally: it evaluates the
sub-condition and propagates its failure as an error. -/
theorem C8_or_mixed_error :
    evaluate_condition envNoEvent .or
        (.infixExpr .equal (.identExpr "nokey") (.identExpr "nokey"))
        (.litExpr (.intLit 5)) =
      .err "error in evaluation between InfixExpr and expr" := by
  simp [evaluate_condition, get_var_from_ident, gen_literal_form_exp, get_var,
    search_var_memory, check_if_ident, envNoEvent, emptyMemory, emptyScope,
    Scope.contains_key]

/-- Claim C8 as amended: in a mixed node (one side an infix
sub-condition, the other a plain non-infix operand), PROVIDED both the
infix sub-condition evaluates without error and the plain operand
resolves, `and` returns the sub-condition's own boolean result and `or`
returns `true` regardless of that result (the sub-condition is still
evaluated and its failure, or the operand's, is an error instead). -/
theorem C8_mixed_condition (env : Env) (i1 : InfixOp) (e1 e2 exp : Expr) (b : Bool)
    (l : Literal) (hshape : isInfixNode exp = false)
    (hsub : evaluate_condition env i1 e1 e2 = .ok b)
    (hop : gen_literal_form_exp env exp = .ok l) :
    evaluate_condition env .and (.infixExpr i1 e1 e2) exp = .ok b ∧
    evaluate_condition env .or (.infixExpr i1 e1 e2) exp = .ok true ∧
    evaluate_condition env .and exp (.infixExpr i1 e1 e2) = .ok b ∧
    evaluate_condition env .or exp (.infixExpr i1 e1 e2) = .ok true := by
  cases exp with
  | infixExpr i a c => simp [isInfixNode] at hshape
  | litExpr lit => exact ⟨by simp [evaluate_condition, hsub, hop],
      by simp [evaluate_condition, hsub, hop], by simp [evaluate_condition, hsub, hop],
      by simp [evaluate_condition, hsub, hop]⟩
  | identExpr i => exact ⟨by simp [evaluate_condition, hsub, hop],
      by simp [evaluate_condition, hsub, hop], by simp [evaluate_condition, hsub, hop],
      by simp [evaluate_condition, hsub, hop]⟩
  | builderExpr a c => exact ⟨by simp [evaluate_condition, hsub, hop],
      by simp [evaluate_condition, hsub, hop], by simp [evaluate_condition, hsub, hop],
      by simp [evaluate_condition, hsub, hop]⟩
  | complexLiteral v => exact ⟨by simp [evaluate_condition, hsub, hop],
      by simp [evaluate_condition, hsub, hop], by simp [evaluate_condition, hsub, hop],
      by simp [evaluate_condition, hsub, hop]⟩
  | vecExpr v => exact ⟨by simp [evaluate_condition, hsub, hop],
      by simp [evaluate_condition, hsub, hop], by simp [evaluate_condition, hsub, hop],
      by simp [evaluate_condition, hsub, hop]⟩
  | reserved f a => exact ⟨by simp [evaluate_condition, hsub, hop],
      by simp [evaluate_condition, hsub, hop], by simp [evaluate_condition, hsub, hop],
      by simp [evaluate_condition, hsub, hop]⟩
  | ifExpr c q => exact ⟨by simp [evaluate_condition, hsub, hop],
      by simp [evaluate_condition, hsub, hop], by simp [evaluate_condition, hsub, hop],
      by simp [evaluate_condition, hsub, hop]⟩
  | goto s => exact ⟨by simp [evaluate_condition, hsub, hop],
      by simp [evaluate_condition, hsub, hop], by simp [evaluate_condition, hsub, hop],
      by simp [evaluate_condition, hsub, hop]⟩
  | remember n e => exact ⟨by simp [evaluate_condition, hsub, hop],
      by simp [evaluate_condition, hsub, hop], by simp [evaluate_condition, hsub, hop],
      by simp [evaluate_condition, hsub, hop]⟩
  | action n a => exact ⟨by simp [evaluate_condition, hsub, hop],
      by simp [evaluate_condition, hsub, hop], by simp [evaluate_condition, hsub, hop],
      by simp [evaluate_condition, hsub, hop]⟩
  | functionExpr n a => exact ⟨by simp [evaluate_condition, hsub, hop],
      by simp [evaluate_condition, hsub, hop], by simp [evaluate_condition, hsub, hop],
      by simp [evaluate_condition, hsub, hop]⟩
  | empty => exact ⟨by simp [evaluate_condition, hsub, hop],
      by simp [evaluate_condition, hsub, hop], by simp [evaluate_condition, hsub, hop],
      by simp [evaluate_condition, hsub, hop]⟩

/-- Witness for C8 at a concrete input: a true sub-condition `1 == 1`
mixed with a resolvable string-literal operand. -/
theorem C8_mixed_condition_witness :
    evaluate_condition envNoEvent .and
        (.infixExpr .equal (.litExpr (.intLit 1)) (.litExpr (.intLit 1)))
        (.litExpr (.strLit "s")) = .ok true ∧
    evaluate_condition envNoEvent .or
        (.infixExpr .equal (.litExpr (.intLit 1)) (.litExpr (.intLit 1)))
        (.litExpr (.strLit "s")) = .ok true := by
  have h := C8_mixed_condition envNoEvent .equal (.litExpr (.intLit 1))
    (.litExpr (.intLit 1)) (.litExpr (.strLit "s")) true (.strLit "s") rfl
    (by simp [evaluate_condition, cmp_lit]) rfl
  exact ⟨h.1, h.2.1⟩

/-- Claim C9, counterexample: a `remember` whose expression resolves
successfully to a NON-string literal (here the integer literal `5`)
does not record a memory write — it aborts the whole block with an
error, although resolution succeeded. -/
theorem C9_remember_nonstring_aborts :
    get_var_from_ident envNoEvent (.litExpr (.intLit 5)) = .ok (.intLit 5) ∧
    match_block envNoEvent [.remember "x" (.litExpr (.intLit 5))] =
      .err "Error Assign value must be valid" := by
  constructor
  · simp [get_var_from_ident]
  · simp [match_block, match_block_from, check_if_ident, get_var_from_ident]

/-- Claim C9 as amended: for a `remember <name> = <expr>` whose
expression has one of the four resolvable shapes, resolution to a
STRING literal records the memory write and interpretation continues
with the rest of the block; resolution to any non-string literal, or a
resolution failure, aborts the whole block invocation with an error (no
partial accumulator). -/
theorem C9_remember_string_or_abort (env : Env) (root : RootInterface) (name : String)
    (expr : Expr) (rest : List Expr) (hstep : root.next_step = none)
    (hident : check_if_ident expr = true) :
    (∀ s, get_var_from_ident env expr = .ok (.strLit s) →
      match_block_from env root (.remember name expr :: rest) =
        match_block_from env (add_to_message root (remember name s)) rest) ∧
    (∀ m, get_var_from_ident env expr = .err m →
      match_block_from env root (.remember name expr :: rest) =
        .err "Error Assign value must be valid") ∧
    (∀ l, get_var_from_ident env expr = .ok l → (∀ s, l ≠ .strLit s) →
      match_block_from env root (.remember name expr :: rest) =
        .err "Error Assign value must be valid") := by
  refine ⟨?_, ?_, ?_⟩
  · intro s hres
    rw [match_block_from.eq_def]
    simp [hstep, hident, hres]
  · intro m hres
    rw [match_block_from.eq_def]
    simp [hstep, hident, hres]
  · intro l hres hns
    rw [match_block_from.eq_def]
    cases l with
    | strLit s => exact absurd rfl (hns s)
    | intLit i => simp [hstep, hident, hres]
    | boolLit v => simp [hstep, hident, hres]

/-- Witness for C9 at a concrete input: remembering a string literal
records the write. -/
theorem C9_remember_witness :
    match_block_from envNoEvent ⟨none, [], none, none⟩
        [.remember "x" (.litExpr (.strLit "v"))] =
      .ok ⟨some [("x", "v")], [], none, none⟩ := by
  have h := (C9_remember_string_or_abort envNoEvent ⟨none, [], none, none⟩ "x"
    (.litExpr (.strLit "v")) [] rfl rfl).1 "v" (by simp [get_var_from_ident])
  rw [h]
  simp [match_block_from, add_to_message, remember, RootInterface.add_to_memory]

/-- Claim C10: an `if` whose condition is a bare literal expression
evaluates the condition to `true` and runs the consequence block
whatever the literal's value — even a boolean `false` or a non-positive
number. -/
theorem C10_literal_condition_true (env : Env) (l : Literal) (root : RootInterface)
    (conseq rest : List Expr) (hstep : root.next_step = none) :
    valid_condition env (.litExpr l) = .ret true ∧
    match_block_from env root (.ifExpr (.litExpr l) conseq :: rest) =
      (match match_block env conseq with
       | .ok action => match_block_from env (root.merge action) rest
       | .err _ => .err "error in if consequence "
       | .panic => .panic) := by
  constructor
  · rfl
  · rw [match_block_from.eq_def]
    simp [hstep, valid_condition]

/-- Witness for C10 at a concrete input: the literal condition
`false` still runs the consequence. -/
theorem C10_literal_condition_witness :
    match_block_from envNoEvent ⟨none, [], none, none⟩
        [.ifExpr (.litExpr (.boolLit false)) [sayLit "yes"]] =
      .ok ⟨none, [sayMsg "yes"], none, none⟩ := by
  have h := (C10_literal_condition_true envNoEvent (.boolLit false) ⟨none, [], none, none⟩
    [sayLit "yes"] [] rfl).2
  rw [h]
  simp [match_block, match_block_from, match_reserved, match_action, sayLit, sayMsg,
    Message.new, add_to_message, RootInterface.add_message, RootInterface.merge]

end Ast

namespace Prim

/-- Claim C4 (code bug): `do_div` with a zero divisor fails with the
recoverable DivisionByZero error, but `do_rem` has no zero-divisor
check, so a `%`-style remainder with a zero divisor PANICS (aborting
the process) instead of returning an error. -/
theorem C4_zero_divisor_div_err_rem_panic :
    (∀ a : Int, PrimitiveInt.do_div a (.int 0) = .err "DivisionByZero") ∧
    (∀ a : Int, PrimitiveInt.do_rem a (.int 0) = .panic) ∧
    PrimitiveInt.do_rem 5 (.int 0) = .panic := by
  exact ⟨fun a => rfl, fun a => rfl, rfl⟩

/-- Claim C5, counterexample: at dividend `i64::MIN` and divisor `-1`
(a nonzero divisor, evenly divisible), the evenness check of `do_div`
overflows and the process panics, so no integer result is produced. -/
theorem C5_div_overflow_panics :
    PrimitiveInt.do_div (-(2 ^ 63)) (.int (-1)) = .panic := by
  simp [PrimitiveInt.do_div, check_division_by_zero_i64]

/-- Claim C5 as amended: for every pair of integer values with a
nonzero divisor, excluding the overflowing pair
(`i64::MIN`, `-1`), division yields an integer result (truncated
quotient) when the dividend is evenly divisible by the divisor and a
floating-point result otherwise; and every arithmetic operation between
an integer and a value of a different kind fails with a
TypeMismatch-class (Illegal operation) error. -/
theorem C5_div_promotion_cross_kind (a b : Int) (hb : b ≠ 0)
    (hov : ¬(a = -(2 ^ 63) ∧ b = -1)) :
    (a.tmod b = 0 → PrimitiveInt.do_div a (.int b) = .ok (.int (a.tdiv b))) ∧
    (a.tmod b ≠ 0 → PrimitiveInt.do_div a (.int b) = .ok (.float ((a : ℚ) / (b : ℚ)))) ∧
    (∀ p : Primitive, (∀ z : Int, p ≠ .int z) →
      PrimitiveInt.do_add a p = .err "[!] Add: Illegal operation" ∧
      PrimitiveInt.do_sub a p = .err "[!] Sub: Illegal operation" ∧
      PrimitiveInt.do_mul a p = .err "[!] Mul: Illegal operation" ∧
      PrimitiveInt.do_div a p = .err "[!] Div: Illegal operation" ∧
      PrimitiveInt.do_rem a p = .err "[!] Rem: Illegal operation" ∧
      PrimitiveInt.do_bitand a p = .err "[!] BitAnd: Illegal operation" ∧
      PrimitiveInt.do_bitor a p = .err "[!] BitOr: Illegal operation") := by
  have hcheck : check_division_by_zero_i64 a b = .ok a := by
    simp [check_division_by_zero_i64, hb]
  refine ⟨?_, ?_, ?_⟩
  · intro h0
    simp only [PrimitiveInt.do_div, hcheck]
    rw [if_neg hov, if_neg (by simp [h0])]
  · intro h1
    simp only [PrimitiveInt.do_div, hcheck]
    rw [if_neg hov, if_pos h1]
  · intro p hp
    cases p with
    | int z => exact absurd rfl (hp z)
    | float q => exact ⟨rfl, rfl, rfl, rfl, rfl, rfl, rfl⟩
    | str s => exact ⟨rfl, rfl, rfl, rfl, rfl, rfl, rfl⟩
    | boolean v => exact ⟨rfl, rfl, rfl, rfl, rfl, rfl, rfl⟩
    | array l => exact ⟨rfl, rfl, rfl, rfl, rfl, rfl, rfl⟩
    | object o => exact ⟨rfl, rfl, rfl, rfl, rfl, rfl, rfl⟩
    | null => exact ⟨rfl, rfl, rfl, rfl, rfl, rfl, rfl⟩

/-- Witness for C5 at concrete inputs: `7 / 2` promotes to float,
`6 / 3` stays an integer, and `7 + "s"` is a cross-kind error. -/
theorem C5_div_promotion_witness :
    PrimitiveInt.do_div 7 (.int 2) = .ok (.float (((7 : Int) : ℚ) / ((2 : Int) : ℚ))) ∧
    PrimitiveInt.do_div 6 (.int 3) = .ok (.int 2) ∧
    PrimitiveInt.do_add 7 (.str "s") = .err "[!] Add: Illegal operation" := by
  have h7 := C5_div_promotion_cross_kind 7 2 (by decide) (by decide)
  have h6 := C5_div_promotion_cross_kind 6 3 (by decide) (by decide)
  refine ⟨h7.2.1 (by decide), ?_, (h7.2.2 (.str "s") (fun z hz => Primitive.noConfusion hz)).1⟩
  have := h6.1 (by decide)
  simpa [show Int.tdiv 6 3 = 2 by decide] using this

end Prim
